import Mathlib

/-!
Shallow embedding of the gold-price LINE bots in `app.py` and `app2.py`.

Data model: a fetched price snapshot carries the four fields taken from the
first element of the JSON feed (`asdate`, `blbuy`, `blsell`, `diff`); prices
are modelled as integers (the feed publishes baht amounts).  The remote feed
interaction of `requests.get` is modelled as an inductive response value:
either a network failure (the `requests` call raised), or a status code
together with a body that is either unparseable (`response.json()` raised)
or a JSON array of items whose fields may individually be missing (a missing
key makes the Python subscript raise `KeyError`).
-/

structure GoldData where
  asdate : String
  blbuy : Int
  blsell : Int
  diff : Int
  deriving DecidableEq, Repr

structure FeedItem where
  asdate : Option String
  blbuy : Option Int
  blsell : Option Int
  diff : Option Int
  deriving DecidableEq, Repr

inductive JsonBody where
  | malformed : JsonBody
  | arr : List FeedItem → JsonBody
  deriving DecidableEq, Repr

inductive FeedResponse where
  | netFail : FeedResponse
  | resp : Nat → JsonBody → FeedResponse
  deriving DecidableEq, Repr

/-- Decimal digit character, modelling how Python renders one digit of an
integer. -/
def digitChar (n : Nat) : Char :=
  if n = 0 then '0' else if n = 1 then '1' else if n = 2 then '2'
  else if n = 3 then '3' else if n = 4 then '4' else if n = 5 then '5'
  else if n = 6 then '6' else if n = 7 then '7' else if n = 8 then '8' else '9'

/-- Fuel-based decimal rendering of a natural number, most significant digit
first.  The fuel `n + 1` used by `natDigits` always suffices because the
argument shrinks by a factor of ten at each step. -/
def natDigitsAux : Nat → Nat → List Char
  | 0, _ => []
  | fuel + 1, n =>
      if n < 10 then [digitChar n]
      else natDigitsAux fuel (n / 10) ++ [digitChar (n % 10)]

def natDigits (n : Nat) : List Char := natDigitsAux (n + 1) n

/-- Decimal string of a natural number, modelling Python `str` on a
nonnegative `int`. -/
def pyNatStr (n : Nat) : String := String.mk (natDigits n)

/-- Decimal string of an integer, modelling Python `str` on an `int`: a
leading minus sign for negative values, bare digits otherwise. -/
def pyIntStr (d : Int) : String :=
  if d < 0 then "-" ++ pyNatStr d.natAbs else pyNatStr d.toNat

/-- Python truthiness of an optional environment value: `None` and the empty
string are falsy, every other string is truthy. -/
def pyTruthy : Option String → Bool
  | none => false
  | some s => !s.isEmpty

/-- Substring test on character lists, modelling the Python `in` operator on
strings. -/
def isSubstr (needle : List Char) : List Char → Bool
  | [] => needle.isEmpty
  | c :: rest => needle.isPrefixOf (c :: rest) || isSubstr needle rest

/-- Python `needle in hay` on strings. -/
def pyIn (needle hay : String) : Bool := isSubstr needle.data hay.data

/-- Python `str.capitalize`: first character uppercased, the rest lowercased. -/
def pyCapitalize (s : String) : String :=
  match s.data with
  | [] => ""
  | c :: rest => String.mk (c.toUpper :: rest.map Char.toLower)

/-- The four LINE configuration values as read from the process environment
by both modules; `none` models an absent variable. -/
structure EnvVars where
  LINE_CHANNEL_ACCESS_TOKEN : Option String
  LINE_CHANNEL_SECRET : Option String
  LINE_CHANNEL_ID : Option String
  LINE_USER_ID : Option String
  deriving DecidableEq, Repr

namespace GoldApp2

/-- Embedding of `get_gold_price` in `app2.py` (lines 32-49): on a 200
response whose body parses to a nonempty array, project the four fields of
the first element; every failure path (network error, other status, parse
failure, empty array, missing field) is swallowed and yields `none`. -/
def get_gold_price (r : FeedResponse) : Option GoldData :=
  match r with
  | FeedResponse.netFail => none
  | FeedResponse.resp status body =>
      if status = 200 then
        match body with
        | JsonBody.malformed => none
        | JsonBody.arr [] => none
        | JsonBody.arr (latest :: _) =>
            match latest.asdate, latest.blbuy, latest.blsell, latest.diff with
            | some a, some b, some s, some d => some ⟨a, b, s, d⟩
            | _, _, _, _ => none
      else none

/-- Embedding of `format_gold_message` in `app2.py` (lines 51-63). -/
def format_gold_message (gold_data : Option GoldData) : String :=
  match gold_data with
  | none => "ไม่สามารถดึงข้อมูลราคาทองได้ในขณะนี้"
  | some g =>
      ("ราคาทองคำล่าสุด\nวันที่: " ++ g.asdate)
        ++ ("\nราคารับซื้อ: " ++ pyIntStr g.blbuy ++ " บาท")
        ++ ("\nราคาขาย: " ++ pyIntStr g.blsell ++ " บาท")
        ++ ("\nส่วนต่าง: " ++ pyIntStr g.diff ++ " บาท")

end GoldApp2

namespace GoldApp

/-- Embedding of `get_gold_price` in `app.py` (lines 44-61); the code is
textually identical to the copy in `app2.py`. -/
def get_gold_price (r : FeedResponse) : Option GoldData :=
  match r with
  | FeedResponse.netFail => none
  | FeedResponse.resp status body =>
      if status = 200 then
        match body with
        | JsonBody.malformed => none
        | JsonBody.arr [] => none
        | JsonBody.arr (latest :: _) =>
            match latest.asdate, latest.blbuy, latest.blsell, latest.diff with
            | some a, some b, some s, some d => some ⟨a, b, s, d⟩
            | _, _, _, _ => none
      else none

/-- Embedding of `format_gold_message` in `app.py` (lines 63-75); textually
identical to the copy in `app2.py`. -/
def format_gold_message (gold_data : Option GoldData) : String :=
  match gold_data with
  | none => "ไม่สามารถดึงข้อมูลราคาทองได้ในขณะนี้"
  | some g =>
      ("ราคาทองคำล่าสุด\nวันที่: " ++ g.asdate)
        ++ ("\nราคารับซื้อ: " ++ pyIntStr g.blbuy ++ " บาท")
        ++ ("\nราคาขาย: " ++ pyIntStr g.blsell ++ " บาท")
        ++ ("\nส่วนต่าง: " ++ pyIntStr g.diff ++ " บาท")

end GoldApp

/-- Rendering of a signed price delta inside the change notification of
`app2.py` line 83 and 85: the f-string piece
`('+' if change > 0 else '')` followed by the integer itself. -/
def deltaStr (d : Int) : String := (if 0 < d then "+" else "") ++ pyIntStr d

/-- Embedding of the `change_message` f-string of `app2.py` lines 80-87.
The timestamp `datetime.now().strftime(...)` is passed in as `now`. -/
def buildChangeMessage (prev cur : GoldData) (now : String) : String :=
  let buy_change := cur.blbuy - prev.blbuy
  let sell_change := cur.blsell - prev.blsell
  ("🔔 แจ้งเตือนการเปลี่ยนแปลงราคาทอง\nราคารับซื้อ: " ++ pyIntStr cur.blbuy ++ " บาท ")
    ++ ("(" ++ deltaStr buy_change ++ " บาท)")
    ++ ("\nราคาขาย: " ++ pyIntStr cur.blsell ++ " บาท ")
    ++ ("(" ++ deltaStr sell_change ++ " บาท)")
    ++ ("\nอัพเดทเมื่อ: " ++ now)

/-- Embedding of the notification fan-out loop of `app2.py` lines 89-94.
Each subscriber is attempted in turn with the same message; `deliver`
models whether `line_bot_api.push_message` succeeds for that recipient,
and a failed push is recorded in the second component (the logged errors)
while the loop moves on to the next recipient. -/
def dispatchAll (subs : List String) (msg : String) (deliver : String → Bool) :
    List (String × String) × List String :=
  match subs with
  | [] => ([], [])
  | u :: rest =>
      let r := dispatchAll rest msg deliver
      if deliver u then ((u, msg) :: r.1, r.2) else ((u, msg) :: r.1, u :: r.2)

/-- Observable outcome of one run of `check_price_changes`: the constructed
notification (if any), the push attempts made (recipient paired with the
message sent to it), the recipients whose push raised and was logged, and
the value stored back into the global `last_price`. -/
structure TickResult where
  notification : Option String
  attempts : List (String × String)
  failures : List String
  newLast : Option GoldData
  deriving DecidableEq, Repr

/-- Embedding of `check_price_changes` in `app2.py` lines 65-96.  The feed
response, subscriber set snapshot, per-recipient delivery outcome and clock
reading are passed in; the global `last_price` is threaded explicitly. -/
def check_price_changes (r : FeedResponse) (last_price : Option GoldData)
    (subscribers : List String) (deliver : String → Bool) (now : String) : TickResult :=
  let current_price := GoldApp2.get_gold_price r
  match current_price, last_price with
  | some cur, some prev =>
      if cur.blbuy ≠ prev.blbuy ∨ cur.blsell ≠ prev.blsell then
        let change_message := buildChangeMessage prev cur now
        let d := dispatchAll subscribers change_message deliver
        ⟨some change_message, d.1, d.2, some cur⟩
      else ⟨none, [], [], some cur⟩
  | cp, _ => ⟨none, [], [], cp⟩

namespace SubscriptionRegistry

/-- The set insertion `subscribers.add(user_id)` of `app2.py` line 135. -/
def subscribe (s : Finset String) (id : String) : Finset String := insert id s

/-- The guarded removal of `app2.py` lines 141-142: `remove` is only called
after an explicit membership test, so removing a non-member is a no-op. -/
def unsubscribe (s : Finset String) (id : String) : Finset String :=
  if id ∈ s then s.erase id else s

/-- The membership test `user_id in subscribers`. -/
def containsId (s : Finset String) (id : String) : Bool := decide (id ∈ s)

end SubscriptionRegistry

/-- An inbound text-message event as seen by the handler of `app2.py`:
the sender id and the message text. -/
structure InEvent where
  user_id : String
  text : String
  deriving DecidableEq, Repr

namespace GoldApp2

/-- Embedding of `handle_text_message` in `app2.py` lines 124-151, restricted
to its observable outcome: the updated subscriber set, the reply text sent
through the reply token, and the extra push (the subscription confirmation)
when one is sent. -/
def handle_text_message (r : FeedResponse) (subs : Finset String) (event : InEvent) :
    Finset String × String × Option String :=
  let user_message := event.text.toLower
  let user_id := event.user_id
  if pyIn "gold" user_message || pyIn "ทอง" user_message then
    let gold_data := get_gold_price r
    let reply_text := format_gold_message gold_data
    (SubscriptionRegistry.subscribe subs user_id, reply_text,
      some "คุณได้ลงทะเบียนรับการแจ้งเตือนราคาทองแล้ว\nระบบจะแจ้งเตือนเมื่อมีการเปลี่ยนแปลงราคา")
  else if pyIn "ยกเลิก" user_message || pyIn "unsubscribe" user_message then
    if user_id ∈ subs then
      (subs.erase user_id, "คุณได้ยกเลิกการรับการแจ้งเตือนราคาทองแล้ว", none)
    else (subs, "คุณยังไม่ได้ลงทะเบียนรับการแจ้งเตือนราคาทอง", none)
  else (subs, "ได้รับข้อความ: " ++ user_message, none)

/-- Sequential processing of the events parsed out of one webhook body,
threading the subscriber set through `handle_text_message`. -/
def processEvents (r : FeedResponse) (subs : Finset String) : List InEvent → Finset String
  | [] => subs
  | e :: rest => processEvents r (handle_text_message r subs e).1 rest

/-- Embedding of the `/webhook` route of `app2.py` lines 111-121: the vendor
`handler.handle` raises `InvalidSignatureError` exactly when the signature
does not verify, in which case the route answers 400 and nothing runs;
otherwise the parsed events are dispatched to `handle_text_message`. -/
def webhook (r : FeedResponse) (sigValid : Bool) (subs : Finset String)
    (events : List InEvent) : (String × Nat) × Finset String :=
  if sigValid then (("OK", 200), processEvents r subs events)
  else (("Invalid signature", 400), subs)

/-- Embedding of the module-level configuration block of `app2.py` lines
20-26: the four environment values are read and stored, and no validation
of any kind is performed, so module import never raises from this block. -/
def moduleInit (env : EnvVars) : Except String EnvVars := Except.ok env

end GoldApp2

namespace GoldApp

/-- Embedding of `handle_webhook` in `app.py` lines 111-120, polymorphic in
the state touched by event processing: `handler.handle` raises
`InvalidSignatureError` exactly when the signature fails (answered with 400
and the state untouched), any other exception from event processing is
answered with 500, and success answers 200. -/
def handle_webhook {σ : Type} (sigValid : Bool) (st : σ) (process : σ → Except String σ) :
    (String × Nat) × σ :=
  if sigValid then
    match process st with
    | Except.ok st2 => (("OK", 200), st2)
    | Except.error _ => (("Internal server error", 500), st)
  else (("Invalid signature", 400), st)

/-- Embedding of the module-level configuration block of `app.py` lines
29-36: the four environment values are read, and `ValueError` is raised
when `all([...])` is falsy, i.e. when any value is absent or empty. -/
def moduleInit (env : EnvVars) : Except String EnvVars :=
  if pyTruthy env.LINE_CHANNEL_ACCESS_TOKEN && pyTruthy env.LINE_CHANNEL_SECRET
      && pyTruthy env.LINE_CHANNEL_ID && pyTruthy env.LINE_USER_ID then
    Except.ok env
  else Except.error ("Missing required environment variables. Please check your .env file.")

end GoldApp

/-- The source of an inbound event in `app.py`: its `type` string and the
identifier fields consulted for each recognised type. -/
structure EventSource where
  type : String
  user_id : String
  group_id : String
  room_id : String
  deriving DecidableEq, Repr

/-- Database writes performed by one run of `handle_message` in `app.py`:
an optional insert into `users` (user id and display name) and an optional
insert into `messages` (user id and stored text). -/
structure DbEffects where
  userInsert : Option (String × String)
  messageInsert : Option (String × String)
  deriving DecidableEq, Repr

namespace GoldApp

/-- Body of `handle_message` in `app.py` lines 153-196, after the source
type has been resolved to a `user_id`.  `dbHasUser` is the outcome of the
`SELECT` on `users`; `profileResult` is `some name` when
`messaging_api.get_profile` returns and `none` when it raises (in which
case the `users` insert inside the `try` block is skipped); the reply is
always attempted. -/
def handleMessageBody (src : EventSource) (user_id : String) (text : String)
    (dbHasUser : Bool) (profileResult : Option String) (r : FeedResponse) :
    DbEffects × Option String :=
  let message_text := text.toLower
  let userInsert : Option (String × String) :=
    if dbHasUser then none
    else
      match (if src.type = "user" then profileResult
             else some (pyCapitalize src.type ++ " " ++ user_id)) with
      | some display_name => some (user_id, display_name)
      | none => none
  let reply_text :=
    if pyIn "gold" message_text || pyIn "ทอง" message_text then
      format_gold_message (get_gold_price r)
    else "ได้รับข้อความ: " ++ message_text
  (⟨userInsert, some (user_id, message_text)⟩, some reply_text)

/-- Embedding of `handle_message` in `app.py` lines 140-196: the source type
selects which identifier is used, and an unrecognised source type returns
before any database write or reply. -/
def handle_message (src : EventSource) (text : String) (dbHasUser : Bool)
    (profileResult : Option String) (r : FeedResponse) : DbEffects × Option String :=
  if src.type = "user" then handleMessageBody src src.user_id text dbHasUser profileResult r
  else if src.type = "group" then handleMessageBody src src.group_id text dbHasUser profileResult r
  else if src.type = "room" then handleMessageBody src src.room_id text dbHasUser profileResult r
  else (⟨none, none⟩, none)

end GoldApp

/-!
Helper lemmas shared by the claim theorems: the decimal rendering never
produces a sign character, the delta rendering carries its sign in the
expected place, and the two delta segments occur inside the change message.
-/

theorem digitChar_ne (n : Nat) : digitChar n ≠ '-' ∧ digitChar n ≠ '+' := by
  unfold digitChar
  repeat' split
  all_goals exact ⟨by decide, by decide⟩

theorem natDigitsAux_ne (fuel : Nat) :
    ∀ (n : Nat), ∀ c ∈ natDigitsAux fuel n, c ≠ '-' ∧ c ≠ '+' := by
  induction fuel with
  | zero => intro n c hc; simp [natDigitsAux] at hc
  | succ f ih =>
      intro n c hc
      simp only [natDigitsAux] at hc
      split at hc
      · simp only [List.mem_singleton] at hc
        subst hc; exact digitChar_ne n
      · rcases List.mem_append.mp hc with h | h
        · exact ih _ c h
        · simp only [List.mem_singleton] at h
          subst h; exact digitChar_ne _

theorem natDigits_ne (n : Nat) : ∀ c ∈ natDigits n, c ≠ '-' ∧ c ≠ '+' :=
  natDigitsAux_ne (n + 1) n

theorem deltaStr_head (d : Int) : (deltaStr d).data.head? = some '+' ↔ 0 < d := by
  unfold deltaStr pyIntStr
  split
  · next h =>
      simp only [String.data_append]
      constructor
      · intro _; exact h
      · intro _; rfl
  · next h =>
      split
      · next hneg =>
          simp only [String.data_append]
          constructor
          · intro habs; simp at habs
          · intro h0; exact absurd h0 h
      · next hnn =>
          have hd0 : d = 0 := by omega
          subst hd0
          constructor
          · intro habs; simp [pyNatStr, natDigits, natDigitsAux, digitChar] at habs
          · intro h0; exact absurd h0 h

theorem deltaStr_negChar (d : Int) : ('-' ∈ (deltaStr d).data) ↔ d < 0 := by
  unfold deltaStr pyIntStr
  split
  · next h =>
      simp only [String.data_append]
      constructor
      · intro habs
        rcases List.mem_append.mp habs with h1 | h1
        · simp at h1
        · split at h1
          · omega
          · exact absurd rfl (natDigits_ne _ _ h1).1
      · intro h0; omega
  · next h =>
      split
      · next hneg =>
          simp only [String.data_append]
          constructor
          · intro _; exact hneg
          · intro _; simp
      · next hnn =>
          simp only [String.data_append]
          constructor
          · intro habs
            simp at habs
            exact absurd rfl (natDigits_ne _ _ habs).1
          · intro h0; exact absurd h0 hnn

theorem buySeg_isIn (prev cur : GoldData) (now : String) :
    List.IsInfix ("(" ++ deltaStr (cur.blbuy - prev.blbuy) ++ " บาท)").data
      (buildChangeMessage prev cur now).data := by
  unfold buildChangeMessage
  refine ⟨("🔔 แจ้งเตือนการเปลี่ยนแปลงราคาทอง\nราคารับซื้อ: "
      ++ pyIntStr cur.blbuy ++ " บาท ").data,
    (("\nราคาขาย: " ++ pyIntStr cur.blsell ++ " บาท ")
      ++ ("(" ++ deltaStr (cur.blsell - prev.blsell) ++ " บาท)")
      ++ ("\nอัพเดทเมื่อ: " ++ now)).data, ?_⟩
  simp [String.data_append, List.append_assoc]

theorem sellSeg_isIn (prev cur : GoldData) (now : String) :
    List.IsInfix ("(" ++ deltaStr (cur.blsell - prev.blsell) ++ " บาท)").data
      (buildChangeMessage prev cur now).data := by
  unfold buildChangeMessage
  refine ⟨(("🔔 แจ้งเตือนการเปลี่ยนแปลงราคาทอง\nราคารับซื้อ: "
      ++ pyIntStr cur.blbuy ++ " บาท ")
      ++ ("(" ++ deltaStr (cur.blbuy - prev.blbuy) ++ " บาท)")
      ++ ("\nราคาขาย: " ++ pyIntStr cur.blsell ++ " บาท ")).data,
    ("\nอัพเดทเมื่อ: " ++ now).data, ?_⟩
  simp [String.data_append, List.append_assoc]

theorem dispatchAll_fst (subs : List String) (msg : String) (deliver : String → Bool) :
    (dispatchAll subs msg deliver).1 = subs.map (fun u => (u, msg)) := by
  induction subs with
  | nil => rfl
  | cons u rest ih =>
      simp only [dispatchAll, List.map_cons]
      split <;> simp [ih]

/-- Claim C1: for every tick of the change detector, a change notification is
constructed and dispatched exactly when both the newly fetched snapshot and
the previously stored snapshot exist and their buy or sell price differs; in
particular, with equal buy and sell prices no notification is produced. -/
theorem claim_C1_tick_notification_iff (r : FeedResponse) (last : Option GoldData)
    (subs : List String) (deliver : String → Bool) (now : String) :
    ((check_price_changes r last subs deliver now).notification.isSome ↔
      (∃ cur prev, GoldApp2.get_gold_price r = some cur ∧ last = some prev ∧
        (cur.blbuy ≠ prev.blbuy ∨ cur.blsell ≠ prev.blsell))) ∧
    (∀ msg, (check_price_changes r last subs deliver now).notification = some msg →
      (check_price_changes r last subs deliver now).attempts = subs.map (fun u => (u, msg))) ∧
    ((check_price_changes r last subs deliver now).notification = none →
      (check_price_changes r last subs deliver now).attempts = []) ∧
    (∀ cur prev, GoldApp2.get_gold_price r = some cur → last = some prev →
      cur.blbuy = prev.blbuy → cur.blsell = prev.blsell →
      (check_price_changes r last subs deliver now).notification = none) := by
  refine ⟨?_, ?_, ?_, ?_⟩
  · rcases hg : GoldApp2.get_gold_price r with _ | cur
    · simp [check_price_changes, hg]
    · rcases last with _ | prev
      · simp [check_price_changes, hg]
      · by_cases hc : cur.blbuy ≠ prev.blbuy ∨ cur.blsell ≠ prev.blsell
        · simp [check_price_changes, hg, hc]
        · push_neg at hc
          obtain ⟨hb, hs⟩ := hc
          simp [check_price_changes, hg, hb, hs]
  · rcases hg : GoldApp2.get_gold_price r with _ | cur
    · simp [check_price_changes, hg]
    · rcases last with _ | prev
      · simp [check_price_changes, hg]
      · by_cases hc : cur.blbuy ≠ prev.blbuy ∨ cur.blsell ≠ prev.blsell
        · simp [check_price_changes, hg, hc, dispatchAll_fst]
        · push_neg at hc
          obtain ⟨hb, hs⟩ := hc
          simp [check_price_changes, hg, hb, hs]
  · rcases hg : GoldApp2.get_gold_price r with _ | cur
    · simp [check_price_changes, hg]
    · rcases last with _ | prev
      · simp [check_price_changes, hg]
      · by_cases hc : cur.blbuy ≠ prev.blbuy ∨ cur.blsell ≠ prev.blsell
        · simp [check_price_changes, hg, hc]
        · push_neg at hc
          obtain ⟨hb, hs⟩ := hc
          simp [check_price_changes, hg, hb, hs]
  · intro cur prev hcur hprev hb hs
    simp [check_price_changes, hcur, hprev, hb, hs]

/-- Witness for C1 at a concrete input: equal buy and sell prices produce no
notification. -/
theorem claim_C1_witness :
    (check_price_changes
      (FeedResponse.resp 200 (JsonBody.arr [⟨some "d", some 100, some 102, some 2⟩]))
      (some ⟨"d", 100, 102, 2⟩) [] (fun _ => true) "t").notification = none :=
  (claim_C1_tick_notification_iff _ _ _ _ _).2.2.2
    ⟨"d", 100, 102, 2⟩ ⟨"d", 100, 102, 2⟩ rfl rfl rfl rfl

/-- Claim C2: after every tick the stored `last_price` equals the value the
fetch returned on that tick, including `None`; consequently a successful
fetch arriving right after a fetch failure is never compared against the
pre-failure snapshot, so it produces no notification. -/
theorem claim_C2_last_snapshot_reset :
    (∀ r last subs deliver now,
      (check_price_changes r last subs deliver now).newLast = GoldApp2.get_gold_price r) ∧
    (∀ (S : GoldData) subs deliver now r2 subs2 deliver2 now2,
      (check_price_changes FeedResponse.netFail (some S) subs deliver now).newLast = none ∧
      (check_price_changes r2
          (check_price_changes FeedResponse.netFail (some S) subs deliver now).newLast
          subs2 deliver2 now2).notification = none) := by
  constructor
  · intro r last subs deliver now
    rcases hg : GoldApp2.get_gold_price r with _ | cur
    · rcases last with _ | prev <;> simp [check_price_changes, hg]
    · rcases last with _ | prev
      · simp [check_price_changes, hg]
      · simp only [check_price_changes, hg]
        split <;> rfl
  · intro S subs deliver now r2 subs2 deliver2 now2
    refine ⟨rfl, ?_⟩
    have h1 : (check_price_changes FeedResponse.netFail (some S) subs deliver now).newLast
        = none := rfl
    rw [h1]
    rcases hg : GoldApp2.get_gold_price r2 with _ | cur <;> simp [check_price_changes, hg]

/-- Claim C3: whenever a notification is produced, the delta segment embedded
in the message for each of buy and sell renders exactly the difference of
current minus previous price, with a plus prefix exactly when the delta is
positive and a minus sign occurring exactly when it is negative; in the
concrete case previous buy 100 / sell 102 and current buy 101 / sell 102 the
message contains the text plus-one for buy and a bare zero for sell. -/
theorem claim_C3_delta_sign (r : FeedResponse) (last : Option GoldData)
    (subs : List String) (deliver : String → Bool) (now msg : String)
    (h : (check_price_changes r last subs deliver now).notification = some msg) :
    (∃ cur prev, GoldApp2.get_gold_price r = some cur ∧ last = some prev ∧
      msg = buildChangeMessage prev cur now ∧
      List.IsInfix ("(" ++ deltaStr (cur.blbuy - prev.blbuy) ++ " บาท)").data msg.data ∧
      List.IsInfix ("(" ++ deltaStr (cur.blsell - prev.blsell) ++ " บาท)").data msg.data ∧
      ((deltaStr (cur.blbuy - prev.blbuy)).data.head? = some '+' ↔ 0 < cur.blbuy - prev.blbuy) ∧
      ('-' ∈ (deltaStr (cur.blbuy - prev.blbuy)).data ↔ cur.blbuy - prev.blbuy < 0) ∧
      ((deltaStr (cur.blsell - prev.blsell)).data.head? = some '+' ↔ 0 < cur.blsell - prev.blsell) ∧
      ('-' ∈ (deltaStr (cur.blsell - prev.blsell)).data ↔ cur.blsell - prev.blsell < 0)) ∧
    (∀ a1 a2 d1 d2 t, List.IsInfix ("+1").data
        (buildChangeMessage ⟨a1, 100, 102, d1⟩ ⟨a2, 101, 102, d2⟩ t).data ∧
      List.IsInfix ("(0 บาท)").data
        (buildChangeMessage ⟨a1, 100, 102, d1⟩ ⟨a2, 101, 102, d2⟩ t).data) := by
  constructor
  · rcases hg : GoldApp2.get_gold_price r with _ | cur
    · exfalso; rcases last with _ | prev <;> simp [check_price_changes, hg] at h
    · rcases last with _ | prev
      · exfalso; simp [check_price_changes, hg] at h
      · have hmsg : msg = buildChangeMessage prev cur now := by
          simp only [check_price_changes, hg] at h
          split at h
          · simpa using h.symm
          · simp at h
        subst hmsg
        exact ⟨cur, prev, rfl, rfl, rfl, buySeg_isIn prev cur now, sellSeg_isIn prev cur now,
          deltaStr_head _, deltaStr_negChar _, deltaStr_head _, deltaStr_negChar _⟩
  · intro a1 a2 d1 d2 t
    constructor
    · have h1 : List.IsInfix ("+1").data
          ("(" ++ deltaStr ((101 : Int) - 100) ++ " บาท)").data := by decide
      have h2 : List.IsInfix ("(" ++ deltaStr ((101 : Int) - 100) ++ " บาท)").data
          (buildChangeMessage ⟨a1, 100, 102, d1⟩ ⟨a2, 101, 102, d2⟩ t).data :=
        buySeg_isIn ⟨a1, 100, 102, d1⟩ ⟨a2, 101, 102, d2⟩ t
      exact h1.trans h2
    · have h1 : ("(" ++ deltaStr ((102 : Int) - 102) ++ " บาท)") = "(0 บาท)" := by decide
      have h2 : List.IsInfix ("(" ++ deltaStr ((102 : Int) - 102) ++ " บาท)").data
          (buildChangeMessage ⟨a1, 100, 102, d1⟩ ⟨a2, 101, 102, d2⟩ t).data :=
        sellSeg_isIn ⟨a1, 100, 102, d1⟩ ⟨a2, 101, 102, d2⟩ t
      rwa [h1] at h2

/-- Witness for C3 at a concrete input: the end-to-end scenario of the spec,
previous snapshot buy 100 / sell 102 and current buy 101 / sell 102. -/
theorem claim_C3_witness :
    List.IsInfix ("+1").data
      (buildChangeMessage ⟨"d", 100, 102, 2⟩ ⟨"d", 101, 102, 1⟩ "x").data ∧
    List.IsInfix ("(0 บาท)").data
      (buildChangeMessage ⟨"d", 100, 102, 2⟩ ⟨"d", 101, 102, 1⟩ "x").data :=
  (claim_C3_delta_sign
    (FeedResponse.resp 200 (JsonBody.arr [⟨some "d", some 101, some 102, some 1⟩]))
    (some ⟨"d", 100, 102, 2⟩) [] (fun _ => true) "x"
    (buildChangeMessage ⟨"d", 100, 102, 2⟩ ⟨"d", 101, 102, 1⟩ "x") (by decide)).2 "d" "d" 2 1 "x"

/-- Claim C4: for every possible feed response `get_gold_price` returns
either a four-field snapshot or `none`, and never lets an error escape:
network failure, non-200 status, malformed or empty body, and a missing
field in the first element all yield `none`, and any returned snapshot is
exactly the four fields of the first array element of a 200 response. -/
theorem claim_C4_feed_fail_soft :
    (GoldApp2.get_gold_price FeedResponse.netFail = none) ∧
    (∀ st b, st ≠ 200 → GoldApp2.get_gold_price (FeedResponse.resp st b) = none) ∧
    (GoldApp2.get_gold_price (FeedResponse.resp 200 JsonBody.malformed) = none) ∧
    (GoldApp2.get_gold_price (FeedResponse.resp 200 (JsonBody.arr [])) = none) ∧
    (∀ item rest,
      (item.asdate = none ∨ item.blbuy = none ∨ item.blsell = none ∨ item.diff = none) →
      GoldApp2.get_gold_price (FeedResponse.resp 200 (JsonBody.arr (item :: rest))) = none) ∧
    (∀ r g, GoldApp2.get_gold_price r = some g →
      ∃ item rest, r = FeedResponse.resp 200 (JsonBody.arr (item :: rest)) ∧
        item.asdate = some g.asdate ∧ item.blbuy = some g.blbuy ∧
        item.blsell = some g.blsell ∧ item.diff = some g.diff) := by
  refine ⟨rfl, ?_, rfl, rfl, ?_, ?_⟩
  · intro st b hst
    simp [GoldApp2.get_gold_price, hst]
  · intro item rest h
    rcases item with ⟨ia, ib, isell, idf⟩
    rcases ia with _ | a <;> rcases ib with _ | bb <;> rcases isell with _ | s <;>
      rcases idf with _ | d <;> simp_all [GoldApp2.get_gold_price]
  · intro r g hg
    rcases r with _ | ⟨st, body⟩
    · simp [GoldApp2.get_gold_price] at hg
    · simp only [GoldApp2.get_gold_price] at hg
      split at hg
      · next hst =>
          subst hst
          rcases body with _ | items
          · simp at hg
          · rcases items with _ | ⟨item, rest⟩
            · simp at hg
            · rcases item with ⟨ia, ib, isell, idf⟩
              rcases ia with _ | a
              · simp at hg
              · rcases ib with _ | bb
                · simp at hg
                · rcases isell with _ | s
                  · simp at hg
                  · rcases idf with _ | d
                    · simp at hg
                    · simp only [Option.some.injEq] at hg
                      subst hg
                      exact ⟨⟨some a, some bb, some s, some d⟩, rest, rfl, rfl, rfl, rfl, rfl⟩
      · simp at hg

/-- Witness for C4 at a concrete input: a 500 status yields `none`. -/
theorem claim_C4_witness :
    GoldApp2.get_gold_price (FeedResponse.resp 500 JsonBody.malformed) = none :=
  claim_C4_feed_fail_soft.2.1 500 JsonBody.malformed (by decide)

/-- Claim C5: during notification dispatch every subscriber receives a
delivery attempt carrying the same message, independently of which
deliveries fail, so one failed recipient never prevents the remaining
attempts; the fan-out is a total function, so no failure escapes the loop. -/
theorem claim_C5_dispatch_best_effort :
    (∀ subs msg deliver, (dispatchAll subs msg deliver).1 = subs.map (fun u => (u, msg))) ∧
    (∀ subs msg d1 d2, (dispatchAll subs msg d1).1 = (dispatchAll subs msg d2).1) := by
  refine ⟨dispatchAll_fst, ?_⟩
  intro subs msg d1 d2
  rw [dispatchAll_fst, dispatchAll_fst]

/-- Claim C6: subscribing makes membership true, unsubscribing makes it
false, unsubscribing a non-member leaves the registry unchanged, and
subscribing twice equals subscribing once (so the set never holds
duplicates). -/
theorem claim_C6_registry_ops (s : Finset String) (id : String) :
    SubscriptionRegistry.containsId (SubscriptionRegistry.subscribe s id) id = true ∧
    SubscriptionRegistry.containsId (SubscriptionRegistry.unsubscribe s id) id = false ∧
    (id ∉ s → SubscriptionRegistry.unsubscribe s id = s) ∧
    SubscriptionRegistry.subscribe (SubscriptionRegistry.subscribe s id) id
      = SubscriptionRegistry.subscribe s id := by
  refine ⟨?_, ?_, ?_, ?_⟩
  · simp [SubscriptionRegistry.containsId, SubscriptionRegistry.subscribe]
  · by_cases hm : id ∈ s
    · simp [SubscriptionRegistry.containsId, SubscriptionRegistry.unsubscribe, hm]
    · simp [SubscriptionRegistry.containsId, SubscriptionRegistry.unsubscribe, hm]
  · intro hm
    simp [SubscriptionRegistry.unsubscribe, hm]
  · simp [SubscriptionRegistry.subscribe, Finset.insert_idem]

/-- Witness for C6 at a concrete input: unsubscribing a non-member of the
empty registry is a no-op. -/
theorem claim_C6_witness :
    SubscriptionRegistry.unsubscribe (∅ : Finset String) "u" = ∅ :=
  (claim_C6_registry_ops ∅ "u").2.2.1 (by simp)

/-- Claim C7: a webhook request whose signature fails verification is
answered with a 400 client error and leaves the program state untouched,
in both `app.py` (`handle_webhook`) and `app2.py` (the `/webhook` route). -/
theorem claim_C7_bad_signature_rejected :
    (∀ (σ : Type) (st : σ) (process : σ → Except String σ),
      GoldApp.handle_webhook false st process = (("Invalid signature", 400), st)) ∧
    (∀ r subs events, GoldApp2.webhook r false subs events = (("Invalid signature", 400), subs)) :=
  ⟨fun _ _ _ => rfl, fun _ _ _ => rfl⟩

/-- Counterexample for C8: in `app2.py` all four configuration values may be
absent and module initialisation still succeeds, contradicting the claim
that startup raises whenever a required value is missing. -/
theorem claim_C8_counterexample :
    GoldApp2.moduleInit ⟨none, none, none, none⟩ = Except.ok ⟨none, none, none, none⟩ := rfl

/-- Claim C8 as amended: in `app.py` startup raises exactly when one of the
four configuration values is absent or empty (Python falsiness), and
otherwise succeeds; in `app2.py` the four values are read but never
validated, so its module initialisation never raises. -/
theorem claim_C8_amended_config :
    (∀ env : EnvVars,
      (∃ msg, GoldApp.moduleInit env = Except.error msg) ↔
        ¬(pyTruthy env.LINE_CHANNEL_ACCESS_TOKEN = true ∧
          pyTruthy env.LINE_CHANNEL_SECRET = true ∧
          pyTruthy env.LINE_CHANNEL_ID = true ∧
          pyTruthy env.LINE_USER_ID = true)) ∧
    (∀ env : EnvVars,
      (pyTruthy env.LINE_CHANNEL_ACCESS_TOKEN = true ∧
        pyTruthy env.LINE_CHANNEL_SECRET = true ∧
        pyTruthy env.LINE_CHANNEL_ID = true ∧
        pyTruthy env.LINE_USER_ID = true) →
      GoldApp.moduleInit env = Except.ok env) ∧
    (∀ env : EnvVars, GoldApp2.moduleInit env = Except.ok env) := by
  refine ⟨?_, ?_, fun _ => rfl⟩
  · intro env
    constructor
    · rintro ⟨msg, hmsg⟩ ⟨h1, h2, h3, h4⟩
      unfold GoldApp.moduleInit at hmsg
      rw [h1, h2, h3, h4] at hmsg
      simp at hmsg
    · intro hn
      by_cases hc : (pyTruthy env.LINE_CHANNEL_ACCESS_TOKEN && pyTruthy env.LINE_CHANNEL_SECRET
          && pyTruthy env.LINE_CHANNEL_ID && pyTruthy env.LINE_USER_ID) = true
      · exfalso
        apply hn
        simp only [Bool.and_eq_true] at hc
        exact ⟨hc.1.1.1, hc.1.1.2, hc.1.2, hc.2⟩
      · refine ⟨"Missing required environment variables. Please check your .env file.", ?_⟩
        unfold GoldApp.moduleInit
        simp [hc]
  · rintro env ⟨h1, h2, h3, h4⟩
    unfold GoldApp.moduleInit
    rw [h1, h2, h3, h4]
    simp

/-- Witness for C8 at a concrete input: with the access token absent,
`app.py` module initialisation raises. -/
theorem claim_C8_witness :
    ∃ msg, GoldApp.moduleInit ⟨none, some "s", some "c", some "u"⟩ = Except.error msg :=
  (claim_C8_amended_config.1 ⟨none, some "s", some "c", some "u"⟩).mpr (by decide)

/-- Claim C9: a text-message event whose source type is not user, group or
room makes `handle_message` in `app.py` return with no reply and no
database write. -/
theorem claim_C9_unknown_source_ignored (src : EventSource) (text : String)
    (dbHasUser : Bool) (profileResult : Option String) (r : FeedResponse)
    (h1 : src.type ≠ "user") (h2 : src.type ≠ "group") (h3 : src.type ≠ "room") :
    GoldApp.handle_message src text dbHasUser profileResult r = (⟨none, none⟩, none) := by
  unfold GoldApp.handle_message
  rw [if_neg h1, if_neg h2, if_neg h3]

/-- Witness for C9 at a concrete input: a source of type `bot` is ignored. -/
theorem claim_C9_witness :
    GoldApp.handle_message ⟨"bot", "u", "g", "rm"⟩ "hello" false none FeedResponse.netFail
      = (⟨none, none⟩, none) :=
  claim_C9_unknown_source_ignored ⟨"bot", "u", "g", "rm"⟩ "hello" false none
    FeedResponse.netFail (by decide) (by decide) (by decide)

/-- Claim C10: the price-feed and formatting helpers of the two bots are
extensionally equivalent, including the `None` case of the formatter. -/
theorem claim_C10_apps_equivalent :
    (∀ r, GoldApp.get_gold_price r = GoldApp2.get_gold_price r) ∧
    (∀ g, GoldApp.format_gold_message g = GoldApp2.format_gold_message g) :=
  ⟨fun _ => rfl, fun _ => rfl⟩
